import Mathlib

/-!
Shallow embedding of the Cola Company production & deployment planning
simulator (source files `app.py` and `app2.py`).

The decision core consists of:
* `allocate_production_with_tradeoffs` (app.py) and `allocate_production`
  (app2.py): capacity-constrained allocation of a 4-component demand vector
  with a week-3 peak policy;
* `shipment_rounding_with_violations` (app.py) and `shipment_rounding`
  (app2.py): truck quantization with a safety-stock floor and a deliberate
  week-2 / North-Diet violation scenario;
* the per-week analyzer quantities `fulfill_pct`, `fulfillment_pct`,
  `violation_flag`, and the two `North_DC_Demand` computations.

Python floats are modelled by exact rationals (ℚ); Python `int(...)`
truncation is `pyInt`; Python `//` (floor division on integers) is
`Int.fdiv`; `np.floor(a / b)` is `⌊(a : ℚ) / b⌋`.  The human-readable
narrative strings are modelled by inductive types carrying the numeric
payloads that the f-strings interpolate.
-/

namespace SCM

/-- Python `int(...)` applied to a float value: truncation toward zero,
modelled on exact rationals. -/
def pyInt (q : ℚ) : ℤ := if 0 ≤ q then ⌊q⌋ else ⌈q⌉

/-- A demand / allocation / shipment vector: the four SKU-DC components
`(North_Regular, North_Diet, South_Regular, South_Diet)` in the order the
sources use. -/
structure Vec4 where
  nReg : ℤ
  nDiet : ℤ
  sReg : ℤ
  sDiet : ℤ
deriving DecidableEq, Repr

/-- `sum(vec)` over the four components. -/
def Vec4.sum (v : Vec4) : ℤ := v.nReg + v.nDiet + v.sReg + v.sDiet

/-- All four components are non-negative. -/
def Vec4.Nonneg (v : Vec4) : Prop :=
  0 ≤ v.nReg ∧ 0 ≤ v.nDiet ∧ 0 ≤ v.sReg ∧ 0 ≤ v.sDiet

instance (v : Vec4) : Decidable v.Nonneg := by
  unfold Vec4.Nonneg
  infer_instance

/-- Trade-off narrative strings of both variants, abstracted to the message
shape with the interpolated numbers.  `TradeOff.none` is the `"-"`
narrative of the full-demand branch. -/
inductive TradeOff
  | none
  | peak (northTotal southTotal : ℤ)
  | severe (totalDemand cap : ℤ)
  | proportional (northTotal southTotal : ℤ)
deriving DecidableEq, Repr

/-- Capacity note of app.py: `"Full demand met"` or
`"Demand exceeded capacity by {n} bottles"`. -/
inductive CapNote
  | fullDemandMet
  | exceededBy (amount : ℤ)
deriving DecidableEq, Repr

/-- Remark of app2.py: `"Full demand met"` or `"Capacity shortfall: {n}"`. -/
inductive Remark
  | fullDemandMet
  | capacityShortfall (amount : ℤ)
deriving DecidableEq, Repr

/-- app.py violation message
`"North DC Diet: Only {q} bottles (below {ss} minimum due to truck rounding)"`. -/
inductive ViolationA
  | northDietBelow (qty ss : ℤ)
deriving DecidableEq, Repr

/-- app2.py violation message
`"SKU index {i} shipment at {q} below safety stock {ss}"`. -/
inductive ViolationB
  | belowSafety (idx : ℕ) (qty ss : ℤ)
deriving DecidableEq, Repr

/-- app.py `allocate_production_with_tradeoffs(demand_vec, week, cap, ss)`. -/
def allocate_production_with_tradeoffs (demand_vec : Vec4) (week cap ss : ℤ) :
    Vec4 × TradeOff × CapNote :=
  let total_demand := demand_vec.sum
  let n_reg := demand_vec.nReg
  let n_diet := demand_vec.nDiet
  let s_reg := demand_vec.sReg
  let s_diet := demand_vec.sDiet
  let north_total := n_reg + n_diet
  let south_total := s_reg + s_diet
  if total_demand ≤ cap then
    (demand_vec, TradeOff.none, CapNote.fullDemandMet)
  else
    let scaling : ℚ := (cap : ℚ) / (total_demand : ℚ)
    if week = 3 then
      let north_priority : ℚ := 105 / 100
      let south_priority : ℚ := 95 / 100
      let n_reg_alloc := pyInt (min (n_reg : ℚ) ((n_reg : ℚ) * scaling * north_priority))
      let n_diet_alloc := pyInt (min (n_diet : ℚ) ((n_diet : ℚ) * scaling * north_priority))
      let s_reg_alloc := pyInt (min (s_reg : ℚ) ((s_reg : ℚ) * scaling * south_priority))
      let s_diet_alloc := pyInt (min (s_diet : ℚ) ((s_diet : ℚ) * scaling * south_priority))
      let total_allocated := n_reg_alloc + n_diet_alloc + s_reg_alloc + s_diet_alloc
      let allocation :=
        if total_allocated > cap then
          let adjustment : ℚ := ((total_allocated : ℚ) - (cap : ℚ)) / 4
          Vec4.mk (max ss (pyInt ((n_reg_alloc : ℚ) - adjustment)))
                  (max ss (pyInt ((n_diet_alloc : ℚ) - adjustment)))
                  (max ss (pyInt ((s_reg_alloc : ℚ) - adjustment)))
                  (max ss (pyInt ((s_diet_alloc : ℚ) - adjustment)))
        else
          Vec4.mk n_reg_alloc n_diet_alloc s_reg_alloc s_diet_alloc
      (allocation, TradeOff.peak north_total south_total,
        CapNote.exceededBy (total_demand - cap))
    else
      let allocation := Vec4.mk (max ss (pyInt ((n_reg : ℚ) * scaling)))
                                (max ss (pyInt ((n_diet : ℚ) * scaling)))
                                (max ss (pyInt ((s_reg : ℚ) * scaling)))
                                (max ss (pyInt ((s_diet : ℚ) * scaling)))
      let total_after_safety := allocation.sum
      if total_after_safety > cap then
        (Vec4.mk (pyInt ((n_reg : ℚ) * scaling * (9 / 10)))
                 (pyInt ((n_diet : ℚ) * scaling * (9 / 10)))
                 (pyInt ((s_reg : ℚ) * scaling * (9 / 10)))
                 (pyInt ((s_diet : ℚ) * scaling * (9 / 10))),
         TradeOff.severe total_demand cap, CapNote.exceededBy (total_demand - cap))
      else
        (allocation, TradeOff.proportional north_total south_total,
         CapNote.exceededBy (total_demand - cap))

/-- app2.py module-level constant `capacity = 150_000`. -/
def capacity : ℤ := 150000

/-- app2.py module-level constant `truck_size = 10_000`. -/
def truck_size : ℤ := 10000

/-- app2.py module-level constant `safety_stock = 5_000`. -/
def safety_stock : ℤ := 5000

/-- app2.py `allocate_production(demand_vec, week)` (reads the module
constants `capacity` and `safety_stock`). -/
def allocate_production (demand_vec : Vec4) (week : ℤ) :
    Vec4 × TradeOff × Remark :=
  let total_demand := demand_vec.sum
  let n_reg := demand_vec.nReg
  let n_diet := demand_vec.nDiet
  let s_reg := demand_vec.sReg
  let s_diet := demand_vec.sDiet
  let north_total := n_reg + n_diet
  let south_total := s_reg + s_diet
  if total_demand ≤ capacity then
    (demand_vec, TradeOff.none, Remark.fullDemandMet)
  else
    let scale : ℚ := (capacity : ℚ) / (total_demand : ℚ)
    let remark := Remark.capacityShortfall
      (if total_demand > capacity then total_demand - capacity else 0)
    if week = 3 then
      let north_priority : ℚ := 105 / 100
      let south_priority : ℚ := 95 / 100
      let n_reg_alloc := pyInt (min (n_reg : ℚ) ((n_reg : ℚ) * scale * north_priority))
      let n_diet_alloc := pyInt (min (n_diet : ℚ) ((n_diet : ℚ) * scale * north_priority))
      let s_reg_alloc := pyInt (min (s_reg : ℚ) ((s_reg : ℚ) * scale * south_priority))
      let s_diet_alloc := pyInt (min (s_diet : ℚ) ((s_diet : ℚ) * scale * south_priority))
      let total_alloc := n_reg_alloc + n_diet_alloc + s_reg_alloc + s_diet_alloc
      let allocation :=
        if total_alloc > capacity then
          let adjustment : ℚ := ((total_alloc : ℚ) - (capacity : ℚ)) / 4
          Vec4.mk (max safety_stock (pyInt ((n_reg_alloc : ℚ) - adjustment)))
                  (max safety_stock (pyInt ((n_diet_alloc : ℚ) - adjustment)))
                  (max safety_stock (pyInt ((s_reg_alloc : ℚ) - adjustment)))
                  (max safety_stock (pyInt ((s_diet_alloc : ℚ) - adjustment)))
        else
          Vec4.mk n_reg_alloc n_diet_alloc s_reg_alloc s_diet_alloc
      (allocation, TradeOff.peak north_total south_total, remark)
    else
      let allocation := Vec4.mk (max safety_stock (pyInt ((n_reg : ℚ) * scale)))
                                (max safety_stock (pyInt ((n_diet : ℚ) * scale)))
                                (max safety_stock (pyInt ((s_reg : ℚ) * scale)))
                                (max safety_stock (pyInt ((s_diet : ℚ) * scale)))
      let total_after_safety := allocation.sum
      if total_after_safety > capacity then
        (Vec4.mk (pyInt ((n_reg : ℚ) * scale * (9 / 10)))
                 (pyInt ((n_diet : ℚ) * scale * (9 / 10)))
                 (pyInt ((s_reg : ℚ) * scale * (9 / 10)))
                 (pyInt ((s_diet : ℚ) * scale * (9 / 10))),
         TradeOff.severe total_demand capacity, remark)
      else
        (allocation, TradeOff.proportional north_total south_total, remark)

/-- One loop iteration of app.py `shipment_rounding_with_violations` for
component `i`: the `d == 0` early continue, the week-2 / index-1 branch
(`truck_sz * int(np.floor(alloc / truck_sz))` without the safety floor,
appending a note when below `ss`), and the normal branch
`max((alloc // truck_sz) * truck_sz, ss)`. -/
def ship_comp_A (week : ℤ) (i : ℕ) (alloc d ss truck_sz : ℤ) :
    ℤ × List ViolationA :=
  if d = 0 then (0, [])
  else if week = 2 ∧ i = 1 then
    let shipment_qty := truck_sz * ⌊(alloc : ℚ) / (truck_sz : ℚ)⌋
    (shipment_qty,
      if shipment_qty < ss then [ViolationA.northDietBelow shipment_qty ss] else [])
  else
    (max (Int.fdiv alloc truck_sz * truck_sz) ss, [])

/-- app.py `shipment_rounding_with_violations(allocation, ss, truck_sz,
demand_vec, week)`: the four components in loop order with the collected
violation notes. -/
def shipment_rounding_with_violations (allocation : Vec4) (ss truck_sz : ℤ)
    (demand_vec : Vec4) (week : ℤ) : Vec4 × List ViolationA :=
  let c0 := ship_comp_A week 0 allocation.nReg demand_vec.nReg ss truck_sz
  let c1 := ship_comp_A week 1 allocation.nDiet demand_vec.nDiet ss truck_sz
  let c2 := ship_comp_A week 2 allocation.sReg demand_vec.sReg ss truck_sz
  let c3 := ship_comp_A week 3 allocation.sDiet demand_vec.sDiet ss truck_sz
  (Vec4.mk c0.1 c1.1 c2.1 c3.1, c0.2 ++ c1.2 ++ c2.2 ++ c3.2)

/-- One loop iteration of app2.py `shipment_rounding` for component `i`:
`(alloc // truck_size) * truck_size`, the safety floor `max(·, safety_stock)`,
the forced week-2 / index-1 injection to `safety_stock - 1000` when the
floored quantity exceeds `safety_stock`, and the unconditional
below-safety-stock violation check. -/
def ship_comp_B (week : ℤ) (i : ℕ) (alloc d : ℤ) : ℤ × List ViolationB :=
  if d = 0 then (0, [])
  else
    let ship_qty0 := Int.fdiv alloc truck_size * truck_size
    let ship_qty1 := max ship_qty0 safety_stock
    let ship_qty :=
      if week = 2 ∧ i = 1 ∧ ship_qty1 > safety_stock then safety_stock - 1000
      else ship_qty1
    (ship_qty,
      if ship_qty < safety_stock then [ViolationB.belowSafety i ship_qty safety_stock]
      else [])

/-- app2.py `shipment_rounding(allocation, demand_vec, week)`. -/
def shipment_rounding (allocation demand_vec : Vec4) (week : ℤ) :
    Vec4 × List ViolationB :=
  let c0 := ship_comp_B week 0 allocation.nReg demand_vec.nReg
  let c1 := ship_comp_B week 1 allocation.nDiet demand_vec.nDiet
  let c2 := ship_comp_B week 2 allocation.sReg demand_vec.sReg
  let c3 := ship_comp_B week 3 allocation.sDiet demand_vec.sDiet
  (Vec4.mk c0.1 c1.1 c2.1 c3.1, c0.2 ++ c1.2 ++ c2.2 ++ c3.2)

/-- Both variants: `fulfilled = sum(min(s, d) for s, d in zip(shipments, demand_vec))`. -/
def fulfilled (shipments demand_vec : Vec4) : ℤ :=
  min shipments.nReg demand_vec.nReg + min shipments.nDiet demand_vec.nDiet +
    min shipments.sReg demand_vec.sReg + min shipments.sDiet demand_vec.sDiet

/-- app.py `fulfill_pct = (fulfilled / total_week_demand * 100) if
total_week_demand > 0 else 100`. -/
def fulfill_pct (shipments demand_vec : Vec4) : ℚ :=
  if 0 < demand_vec.sum then
    (fulfilled shipments demand_vec : ℚ) / (demand_vec.sum : ℚ) * 100
  else 100

/-- app2.py `fulfillment_pct = 100 * fulfilled / total_demand if
total_demand else 100` (Python truthiness: `total_demand ≠ 0`). -/
def fulfillment_pct (shipments demand_vec : Vec4) : ℚ :=
  if demand_vec.sum ≠ 0 then
    100 * (fulfilled shipments demand_vec : ℚ) / (demand_vec.sum : ℚ)
  else 100

/-- app.py `violation_flag = any((s < safety_stock and d > 0) for s, d in
zip(shipments, demand_vec))`. -/
def violation_flag (shipments demand_vec : Vec4) (ss : ℤ) : Prop :=
  (shipments.nReg < ss ∧ 0 < demand_vec.nReg) ∨
    (shipments.nDiet < ss ∧ 0 < demand_vec.nDiet) ∨
    (shipments.sReg < ss ∧ 0 < demand_vec.sReg) ∨
    (shipments.sDiet < ss ∧ 0 < demand_vec.sDiet)

instance (s d : Vec4) (ss : ℤ) : Decidable (violation_flag s d ss) := by
  unfold violation_flag
  infer_instance

/-- app.py line 115: `"North_DC_Demand": demand_vec + demand_vec[1]`.
`demand_vec` is a Python list of numpy integers, so `+ demand_vec[1]`
numpy-broadcasts the scalar over the whole vector, yielding a 4-element
array rather than a number. -/
def north_dc_demand_broadcast (demand_vec : Vec4) : Vec4 :=
  Vec4.mk (demand_vec.nReg + demand_vec.nDiet)
          (demand_vec.nDiet + demand_vec.nDiet)
          (demand_vec.sReg + demand_vec.nDiet)
          (demand_vec.sDiet + demand_vec.nDiet)

/-- app2.py line 128: `"North_DC_Demand": demand_vec[0] + demand_vec[1]`. -/
def north_dc_demand (demand_vec : Vec4) : ℤ :=
  demand_vec.nReg + demand_vec.nDiet

/-! Helper lemmas about `pyInt`, floor division and the per-component
shipment functions. -/

lemma pyInt_intCast (n : ℤ) : pyInt (n : ℚ) = n := by
  unfold pyInt
  split
  · exact Int.floor_intCast n
  · exact Int.ceil_intCast n

lemma pyInt_mono {q r : ℚ} (h : q ≤ r) : pyInt q ≤ pyInt r := by
  unfold pyInt
  by_cases hq : 0 ≤ q
  · rw [if_pos hq, if_pos (le_trans hq h)]
    exact Int.floor_mono h
  · rw [if_neg hq]
    by_cases hr : 0 ≤ r
    · rw [if_pos hr]
      have h1 : ⌈q⌉ ≤ 0 := Int.ceil_le.mpr (by exact_mod_cast le_of_lt (lt_of_not_le hq))
      have h2 : (0 : ℤ) ≤ ⌊r⌋ := Int.le_floor.mpr (by exact_mod_cast hr)
      omega
    · rw [if_neg hr]
      exact Int.ceil_mono h

lemma pyInt_le_intCast {q : ℚ} {n : ℤ} (h : q ≤ (n : ℚ)) : pyInt q ≤ n := by
  have := pyInt_mono h
  rwa [pyInt_intCast] at this

lemma fdiv_mul_le {a t : ℤ} (ht : 0 < t) : Int.fdiv a t * t ≤ a := by
  rw [Int.fdiv_eq_ediv a (le_of_lt ht)]
  exact Int.ediv_mul_le a (ne_of_gt ht)

lemma fdiv_mul_nonneg {a t : ℤ} (ha : 0 ≤ a) (ht : 0 < t) : 0 ≤ Int.fdiv a t * t :=
  mul_nonneg (Int.fdiv_nonneg ha (le_of_lt ht)) (le_of_lt ht)

lemma fdiv_mul_cancel {a t : ℤ} (ht : t ≠ 0) (hd : t ∣ a) : Int.fdiv a t * t = a := by
  obtain ⟨k, rfl⟩ := hd
  rw [Int.mul_fdiv_cancel_left k ht, mul_comm]

lemma floor_qdiv_mul_le {a t : ℤ} (ht : 0 < t) : t * ⌊(a : ℚ) / (t : ℚ)⌋ ≤ a := by
  have htq : (0 : ℚ) < (t : ℚ) := by exact_mod_cast ht
  have h1 : (⌊(a : ℚ) / (t : ℚ)⌋ : ℚ) ≤ (a : ℚ) / (t : ℚ) := Int.floor_le _
  have h2 : ((t : ℤ) : ℚ) * (⌊(a : ℚ) / (t : ℚ)⌋ : ℚ) ≤ (a : ℚ) := by
    calc ((t : ℤ) : ℚ) * (⌊(a : ℚ) / (t : ℚ)⌋ : ℚ)
        ≤ (t : ℚ) * ((a : ℚ) / (t : ℚ)) := mul_le_mul_of_nonneg_left h1 (le_of_lt htq)
      _ = (a : ℚ) := by field_simp
  exact_mod_cast h2

lemma floor_qdiv_mul_nonneg {a t : ℤ} (ha : 0 ≤ a) (ht : 0 < t) :
    0 ≤ t * ⌊(a : ℚ) / (t : ℚ)⌋ := by
  have htq : (0 : ℚ) < (t : ℚ) := by exact_mod_cast ht
  refine mul_nonneg (le_of_lt ht) (Int.le_floor.mpr ?_)
  have h : (0 : ℚ) ≤ (a : ℚ) / (t : ℚ) := div_nonneg (by exact_mod_cast ha) (le_of_lt htq)
  exact_mod_cast h

lemma floor_qdiv_eq_zero {a t : ℤ} (ha : 0 ≤ a) (halt : a < t) :
    ⌊(a : ℚ) / (t : ℚ)⌋ = 0 := by
  have ht : (0 : ℤ) < t := lt_of_le_of_lt ha halt
  have htq : (0 : ℚ) < (t : ℚ) := by exact_mod_cast ht
  rw [Int.floor_eq_zero_iff]
  constructor
  · exact div_nonneg (by exact_mod_cast ha) (le_of_lt htq)
  · rw [div_lt_one htq]
    exact_mod_cast halt

lemma ship_comp_A_notes_nil {week : ℤ} {i : ℕ} {a d ss truck : ℤ}
    (h : ¬(week = 2 ∧ i = 1)) : (ship_comp_A week i a d ss truck).2 = [] := by
  unfold ship_comp_A
  by_cases h0 : d = 0
  · rw [if_pos h0]
  · rw [if_neg h0, if_neg h]

lemma ship_comp_A_floor {week : ℤ} {i : ℕ} {a d ss truck : ℤ}
    (h : ¬(week = 2 ∧ i = 1)) (h0 : d ≠ 0) :
    ss ≤ (ship_comp_A week i a d ss truck).1 := by
  unfold ship_comp_A
  rw [if_neg h0, if_neg h]
  exact le_max_right _ _

lemma ship_comp_A_le (week : ℤ) (i : ℕ) (a d ss truck : ℤ)
    (ht : 0 < truck) (ha : 0 ≤ a) (hss : d ≠ 0 → ss ≤ a) :
    (ship_comp_A week i a d ss truck).1 ≤ a := by
  unfold ship_comp_A
  by_cases h0 : d = 0
  · rw [if_pos h0]
    exact ha
  · rw [if_neg h0]
    by_cases hb : week = 2 ∧ i = 1
    · rw [if_pos hb]
      exact floor_qdiv_mul_le ht
    · rw [if_neg hb]
      exact max_le (fdiv_mul_le ht) (hss h0)

lemma ship_comp_A_shape {week : ℤ} {i : ℕ} {a d ss truck : ℤ}
    (ht : 0 < truck) (ha : 0 ≤ a) (hss : 0 ≤ ss) :
    0 ≤ (ship_comp_A week i a d ss truck).1 ∧
      (truck ∣ (ship_comp_A week i a d ss truck).1 ∨
        (ship_comp_A week i a d ss truck).1 = ss) := by
  unfold ship_comp_A
  by_cases h0 : d = 0
  · rw [if_pos h0]
    exact ⟨le_refl 0, Or.inl (dvd_zero truck)⟩
  · rw [if_neg h0]
    by_cases hb : week = 2 ∧ i = 1
    · rw [if_pos hb]
      exact ⟨floor_qdiv_mul_nonneg ha ht, Or.inl (dvd_mul_right truck _)⟩
    · rw [if_neg hb]
      refine ⟨le_trans hss (le_max_right _ _), ?_⟩
      rcases max_choice (Int.fdiv a truck * truck) ss with h | h
      · rw [h]
        exact Or.inl (dvd_mul_left truck _)
      · rw [h]
        exact Or.inr rfl

lemma ship_comp_B_notes_nil {week : ℤ} {i : ℕ} {a d : ℤ}
    (h : ¬(week = 2 ∧ i = 1)) : (ship_comp_B week i a d).2 = [] := by
  simp only [ship_comp_B]
  by_cases h0 : d = 0
  · rw [if_pos h0]
  · rw [if_neg h0]
    have hc : ¬(week = 2 ∧ i = 1 ∧
        max (Int.fdiv a truck_size * truck_size) safety_stock > safety_stock) := by
      intro hcon
      exact h ⟨hcon.1, hcon.2.1⟩
    rw [if_neg hc, if_neg (not_lt.mpr (le_max_right _ _))]

lemma ship_comp_B_floor {week : ℤ} {i : ℕ} {a d : ℤ}
    (h : ¬(week = 2 ∧ i = 1)) (h0 : d ≠ 0) :
    safety_stock ≤ (ship_comp_B week i a d).1 := by
  simp only [ship_comp_B]
  rw [if_neg h0]
  have hc : ¬(week = 2 ∧ i = 1 ∧
      max (Int.fdiv a truck_size * truck_size) safety_stock > safety_stock) := by
    intro hcon
    exact h ⟨hcon.1, hcon.2.1⟩
  rw [if_neg hc]
  exact le_max_right _ _

lemma ship_comp_B_le (week : ℤ) (i : ℕ) (a d : ℤ)
    (ha : 0 ≤ a) (hss : d ≠ 0 → safety_stock ≤ a) :
    (ship_comp_B week i a d).1 ≤ a := by
  simp only [ship_comp_B]
  by_cases h0 : d = 0
  · rw [if_pos h0]
    exact ha
  · rw [if_neg h0]
    have hta : (0 : ℤ) < truck_size := by unfold truck_size; omega
    by_cases hc : week = 2 ∧ i = 1 ∧
        max (Int.fdiv a truck_size * truck_size) safety_stock > safety_stock
    · rw [if_pos hc]
      have := hss h0
      unfold safety_stock at *
      omega
    · rw [if_neg hc]
      exact max_le (fdiv_mul_le hta) (hss h0)

lemma ship_comp_B_shape (week : ℤ) (i : ℕ) (a d : ℤ) :
    0 ≤ (ship_comp_B week i a d).1 ∧
      (truck_size ∣ (ship_comp_B week i a d).1 ∨
        (ship_comp_B week i a d).1 = safety_stock ∨
        (ship_comp_B week i a d).1 = safety_stock - 1000) := by
  simp only [ship_comp_B]
  by_cases h0 : d = 0
  · rw [if_pos h0]
    exact ⟨le_refl 0, Or.inl (dvd_zero truck_size)⟩
  · rw [if_neg h0]
    have hta : (0 : ℤ) < truck_size := by unfold truck_size; omega
    by_cases hc : week = 2 ∧ i = 1 ∧
        max (Int.fdiv a truck_size * truck_size) safety_stock > safety_stock
    · rw [if_pos hc]
      refine ⟨by unfold safety_stock; omega, Or.inr (Or.inr rfl)⟩
    · rw [if_neg hc]
      have hssnn : (0 : ℤ) ≤ safety_stock := by unfold safety_stock; omega
      refine ⟨le_trans hssnn (le_max_right _ _), ?_⟩
      rcases max_choice (Int.fdiv a truck_size * truck_size) safety_stock with h | h
      · rw [h]
        exact Or.inl (dvd_mul_left truck_size _)
      · rw [h]
        exact Or.inr (Or.inl rfl)

/-! Claim C6 and C9: evaluations of the code at the failing inputs. -/

/-- C6: the two source variants do NOT compute the same `North_DC_Demand`
field.  On demand `(1, 2, 3, 4)`, app.py line 115 (`demand_vec +
demand_vec[1]`, a numpy broadcast of the scalar over the list) stores the
4-vector `(3, 4, 5, 6)`, while app2.py line 128 stores the number `3 =
demand_vec[0] + demand_vec[1]`.  This confirms the spec's §9 note that the
app.py variant is a latent bug; the claim that the variants agree fails on
the code. -/
theorem north_dc_demand_divergence :
    north_dc_demand_broadcast (Vec4.mk 1 2 3 4) = Vec4.mk 3 4 5 6 ∧
      north_dc_demand (Vec4.mk 1 2 3 4) = 3 := by
  decide

/-- C9: neither variant validates its input.  On the malformed demand
vector `(-100, 0, 0, 0)` (negative component), both allocation functions
return a plan containing the negative allocation unchanged, with the
"Full demand met" note, instead of failing fast with a
`ConfigurationError` as the spec requires: no validation code exists in
either source file. -/
theorem negative_demand_returns_plan :
    allocate_production_with_tradeoffs (Vec4.mk (-100) 0 0 0) 1 150000 5000 =
        (Vec4.mk (-100) 0 0 0, TradeOff.none, CapNote.fullDemandMet) ∧
      allocate_production (Vec4.mk (-100) 0 0 0) 1 =
        (Vec4.mk (-100) 0 0 0, TradeOff.none, Remark.fullDemandMet) :=
  ⟨rfl, rfl⟩

/-! Counterexamples for the claims the code refutes as stated. -/

/-- C1 counterexample: week 1 of the repository's own demand data,
`(28000, 18000, 22000, 12000)`, has total demand `80000 ≤ capacity =
150000`, so the allocation equals demand; but the week's fulfillment
percentage computed by app.py from the truck-rounded shipments is `75`,
not `100`. -/
theorem within_capacity_fulfillment_cex :
    (Vec4.mk 28000 18000 22000 12000).sum ≤ 150000 ∧
      fulfill_pct
          (shipment_rounding_with_violations
            (allocate_production_with_tradeoffs
              (Vec4.mk 28000 18000 22000 12000) 1 150000 5000).1
            5000 10000 (Vec4.mk 28000 18000 22000 12000) 1).1
          (Vec4.mk 28000 18000 22000 12000) ≠ 100 := by
  have hs : (shipment_rounding_with_violations
      (allocate_production_with_tradeoffs
        (Vec4.mk 28000 18000 22000 12000) 1 150000 5000).1
      5000 10000 (Vec4.mk 28000 18000 22000 12000) 1).1 =
      Vec4.mk 20000 10000 20000 10000 := by decide
  refine ⟨by decide, ?_⟩
  rw [hs]
  norm_num [fulfill_pct, fulfilled, Vec4.sum]

/-- C2 counterexample: with allocation `(1, 1, 1, 1)` and demand
`(1, 1, 1, 1)` on week 1 (no forced-bypass component), the safety-stock
floor raises every shipment to `5000`, so the shipment total `20000`
exceeds the allocation total `4`. -/
theorem shipment_sum_exceeds_allocation_cex :
    ¬ ((shipment_rounding_with_violations (Vec4.mk 1 1 1 1) 5000 10000
          (Vec4.mk 1 1 1 1) 1).1.sum ≤ (Vec4.mk 1 1 1 1).sum) := by
  decide

/-- C3 counterexample: on peak week 3 with demand `(100, 100, 1, 1)`,
capacity `100` and safety stock `50`, the post-scaling sum `102` still
exceeds capacity, and the uniform adjustment floored at the safety stock
allocates `50` to South Regular — more than its demand `1`. -/
theorem peak_week_over_demand_cex :
    100 < (Vec4.mk 100 100 1 1).sum ∧
      (allocate_production_with_tradeoffs (Vec4.mk 100 100 1 1) 3 100 50).1.sReg = 50 ∧
      ¬ ((allocate_production_with_tradeoffs (Vec4.mk 100 100 1 1) 3 100 50).1.sReg ≤
          (Vec4.mk 100 100 1 1).sReg) := by
  have h : (allocate_production_with_tradeoffs (Vec4.mk 100 100 1 1) 3 100 50).1.sReg = 50 := by
    norm_num [allocate_production_with_tradeoffs, Vec4.sum, pyInt, min_def, Int.ceil_le]
  refine ⟨by decide, h, ?_⟩
  rw [h]
  decide

/-- C4 counterexample: in the app2.py variant, on the designated
violation week/SKU (week 2, North Diet) with allocation `3000 <
truck_size` (truck-quantized amount `0`), the safety floor still applies:
the shipment is `5000 = safety_stock`, not the forced-bypass value, and
the violation-note list is empty. -/
theorem forced_bypass_floor_applies_cex :
    (3000 : ℤ) < truck_size ∧
      (shipment_rounding (Vec4.mk 12000 3000 12000 12000)
          (Vec4.mk 12000 3000 12000 12000) 2).1.nDiet = safety_stock ∧
      (shipment_rounding (Vec4.mk 12000 3000 12000 12000)
          (Vec4.mk 12000 3000 12000 12000) 2).2 = [] := by
  decide

/-- C5 counterexample: in the app2.py variant, the forced week-2 / North
Diet injection ships `4000 = safety_stock - 1000`, which is neither a
multiple of `truck_size = 10000` nor the safety-stock floor value. -/
theorem shipment_not_truck_multiple_cex :
    (shipment_rounding (Vec4.mk 12000 12000 12000 12000)
        (Vec4.mk 12000 12000 12000 12000) 2).1.nDiet = 4000 ∧
      ¬ (truck_size ∣ (shipment_rounding (Vec4.mk 12000 12000 12000 12000)
          (Vec4.mk 12000 12000 12000 12000) 2).1.nDiet) ∧
      (shipment_rounding (Vec4.mk 12000 12000 12000 12000)
          (Vec4.mk 12000 12000 12000 12000) 2).1.nDiet ≠ safety_stock := by
  decide

/-! Further helper lemmas for the allocation bounds and the
within-capacity pipeline. -/

lemma pyInt_min_le (dc : ℤ) (q : ℚ) : pyInt (min (dc : ℚ) q) ≤ dc :=
  pyInt_le_intCast (min_le_left _ _)

lemma max_pyInt_adj_le {x dc ss : ℤ} {adj : ℚ} (hx : x ≤ dc) (hadj : 0 ≤ adj) :
    max ss (pyInt ((x : ℚ) - adj)) ≤ max ss dc := by
  refine max_le (le_max_left _ _) (le_trans (pyInt_le_intCast ?_) (le_max_right _ _))
  have h : ((x : ℤ) : ℚ) ≤ (dc : ℚ) := by exact_mod_cast hx
  linarith

lemma peak_allocation_bound_A (d : Vec4) (cap ss : ℤ) (hover : cap < d.sum) :
    (allocate_production_with_tradeoffs d 3 cap ss).1.nReg ≤ max ss d.nReg ∧
    (allocate_production_with_tradeoffs d 3 cap ss).1.nDiet ≤ max ss d.nDiet ∧
    (allocate_production_with_tradeoffs d 3 cap ss).1.sReg ≤ max ss d.sReg ∧
    (allocate_production_with_tradeoffs d 3 cap ss).1.sDiet ≤ max ss d.sDiet := by
  unfold allocate_production_with_tradeoffs
  rw [if_neg (not_le.mpr hover), if_pos rfl]
  dsimp only
  split
  · rename_i htot
    have hadj : (0 : ℚ) ≤
        ((pyInt (min (d.nReg : ℚ) ((d.nReg : ℚ) * ((cap : ℚ) / (d.sum : ℚ)) * (105 / 100))) +
          pyInt (min (d.nDiet : ℚ) ((d.nDiet : ℚ) * ((cap : ℚ) / (d.sum : ℚ)) * (105 / 100))) +
          pyInt (min (d.sReg : ℚ) ((d.sReg : ℚ) * ((cap : ℚ) / (d.sum : ℚ)) * (95 / 100))) +
          pyInt (min (d.sDiet : ℚ) ((d.sDiet : ℚ) * ((cap : ℚ) / (d.sum : ℚ)) * (95 / 100))) : ℤ) -
          (cap : ℚ)) / 4 :=
      div_nonneg (sub_nonneg.mpr (by exact_mod_cast le_of_lt htot)) (by norm_num)
    exact ⟨max_pyInt_adj_le (pyInt_min_le _ _) hadj,
           max_pyInt_adj_le (pyInt_min_le _ _) hadj,
           max_pyInt_adj_le (pyInt_min_le _ _) hadj,
           max_pyInt_adj_le (pyInt_min_le _ _) hadj⟩
  · exact ⟨le_trans (pyInt_min_le _ _) (le_max_right _ _),
           le_trans (pyInt_min_le _ _) (le_max_right _ _),
           le_trans (pyInt_min_le _ _) (le_max_right _ _),
           le_trans (pyInt_min_le _ _) (le_max_right _ _)⟩

lemma peak_allocation_bound_B (d : Vec4) (hover : capacity < d.sum) :
    (allocate_production d 3).1.nReg ≤ max safety_stock d.nReg ∧
    (allocate_production d 3).1.nDiet ≤ max safety_stock d.nDiet ∧
    (allocate_production d 3).1.sReg ≤ max safety_stock d.sReg ∧
    (allocate_production d 3).1.sDiet ≤ max safety_stock d.sDiet := by
  unfold allocate_production
  rw [if_neg (not_le.mpr hover), if_pos rfl]
  dsimp only
  split
  · rename_i htot
    have hadj : (0 : ℚ) ≤
        ((pyInt (min (d.nReg : ℚ) ((d.nReg : ℚ) * ((capacity : ℚ) / (d.sum : ℚ)) * (105 / 100))) +
          pyInt (min (d.nDiet : ℚ) ((d.nDiet : ℚ) * ((capacity : ℚ) / (d.sum : ℚ)) * (105 / 100))) +
          pyInt (min (d.sReg : ℚ) ((d.sReg : ℚ) * ((capacity : ℚ) / (d.sum : ℚ)) * (95 / 100))) +
          pyInt (min (d.sDiet : ℚ) ((d.sDiet : ℚ) * ((capacity : ℚ) / (d.sum : ℚ)) * (95 / 100))) : ℤ) -
          (capacity : ℚ)) / 4 :=
      div_nonneg (sub_nonneg.mpr (by exact_mod_cast le_of_lt htot)) (by norm_num)
    exact ⟨max_pyInt_adj_le (pyInt_min_le _ _) hadj,
           max_pyInt_adj_le (pyInt_min_le _ _) hadj,
           max_pyInt_adj_le (pyInt_min_le _ _) hadj,
           max_pyInt_adj_le (pyInt_min_le _ _) hadj⟩
  · exact ⟨le_trans (pyInt_min_le _ _) (le_max_right _ _),
           le_trans (pyInt_min_le _ _) (le_max_right _ _),
           le_trans (pyInt_min_le _ _) (le_max_right _ _),
           le_trans (pyInt_min_le _ _) (le_max_right _ _)⟩

lemma ship_comp_A_of_dvd (week : ℤ) (i : ℕ) (d ss truck : ℤ)
    (hw : week ≠ 2) (ht : truck ≠ 0) (hdvd : truck ∣ d) :
    ship_comp_A week i d d ss truck = (if d = 0 then 0 else max d ss, []) := by
  unfold ship_comp_A
  by_cases h0 : d = 0
  · rw [if_pos h0, if_pos h0]
  · rw [if_neg h0, if_neg (fun hc => hw hc.1 : ¬(week = 2 ∧ i = 1)), if_neg h0,
      fdiv_mul_cancel ht hdvd]

lemma min_ship_eq (x ss : ℤ) : min (if x = 0 then 0 else max x ss) x = x := by
  by_cases h : x = 0
  · simp [h]
  · simp [h, min_eq_right (le_max_left x ss)]

/-! Claim theorems. -/

/-- C1 (amended): for every week whose total demand is at most capacity,
the allocation equals the demand vector exactly with narrative `"-"` and
note `"Full demand met"` — unconditionally; if in addition the week is not
the designated violation week 2 and every demand component is a multiple
of the truck size, the fulfillment percentage is 100 and the
violation-note list is empty.  (The original claim's unconditional
`fulfillment = 100` fails because the fulfillment is computed from
truck-rounded shipments; see the counterexample.) -/
theorem within_capacity_allocation_fulfillment
    (d : Vec4) (week cap ss truck : ℤ) (hcap : d.sum ≤ cap) :
    allocate_production_with_tradeoffs d week cap ss = (d, TradeOff.none, CapNote.fullDemandMet) ∧
    (week ≠ 2 → 0 < truck →
      truck ∣ d.nReg → truck ∣ d.nDiet → truck ∣ d.sReg → truck ∣ d.sDiet →
      fulfill_pct
        (shipment_rounding_with_violations
          (allocate_production_with_tradeoffs d week cap ss).1 ss truck d week).1 d = 100 ∧
      (shipment_rounding_with_violations
        (allocate_production_with_tradeoffs d week cap ss).1 ss truck d week).2 = []) := by
  have halloc : allocate_production_with_tradeoffs d week cap ss =
      (d, TradeOff.none, CapNote.fullDemandMet) := by
    unfold allocate_production_with_tradeoffs
    rw [if_pos hcap]
  refine ⟨halloc, ?_⟩
  intro hw ht h0 h1 h2 h3
  have ht' : truck ≠ 0 := ne_of_gt ht
  have hc0 := ship_comp_A_of_dvd week 0 d.nReg ss truck hw ht' h0
  have hc1 := ship_comp_A_of_dvd week 1 d.nDiet ss truck hw ht' h1
  have hc2 := ship_comp_A_of_dvd week 2 d.sReg ss truck hw ht' h2
  have hc3 := ship_comp_A_of_dvd week 3 d.sDiet ss truck hw ht' h3
  have hships : shipment_rounding_with_violations
      (allocate_production_with_tradeoffs d week cap ss).1 ss truck d week =
      (Vec4.mk (if d.nReg = 0 then 0 else max d.nReg ss)
               (if d.nDiet = 0 then 0 else max d.nDiet ss)
               (if d.sReg = 0 then 0 else max d.sReg ss)
               (if d.sDiet = 0 then 0 else max d.sDiet ss), []) := by
    rw [halloc]
    unfold shipment_rounding_with_violations
    dsimp only
    rw [hc0, hc1, hc2, hc3]
    rfl
  refine ⟨?_, ?_⟩
  · rw [hships]
    unfold fulfill_pct fulfilled Vec4.sum
    dsimp only
    rw [min_ship_eq, min_ship_eq, min_ship_eq, min_ship_eq]
    split
    · rename_i hpos
      rw [div_self (by exact_mod_cast ne_of_gt hpos)]
      norm_num
    · rfl
  · rw [hships]

/-- C2 (amended): whenever every component with nonzero demand is
allocated at least the safety stock (and allocations are non-negative),
the shipment total never exceeds the allocation total — in both variants,
and with no exception needed for the forced-bypass component.  (The
original unconditional claim fails because the safety-stock floor can
raise a shipment above a small allocation; see the counterexample.) -/
theorem shipment_sum_le_allocation
    (a d : Vec4) (ss truck week : ℤ) (ht : 0 < truck) (ha : a.Nonneg)
    (h0 : d.nReg ≠ 0 → ss ≤ a.nReg) (h1 : d.nDiet ≠ 0 → ss ≤ a.nDiet)
    (h2 : d.sReg ≠ 0 → ss ≤ a.sReg) (h3 : d.sDiet ≠ 0 → ss ≤ a.sDiet) :
    (shipment_rounding_with_violations a ss truck d week).1.sum ≤ a.sum ∧
    ((d.nReg ≠ 0 → safety_stock ≤ a.nReg) → (d.nDiet ≠ 0 → safety_stock ≤ a.nDiet) →
      (d.sReg ≠ 0 → safety_stock ≤ a.sReg) → (d.sDiet ≠ 0 → safety_stock ≤ a.sDiet) →
      (shipment_rounding a d week).1.sum ≤ a.sum) := by
  obtain ⟨ha0, ha1, ha2, ha3⟩ := ha
  constructor
  · have l0 := ship_comp_A_le week 0 a.nReg d.nReg ss truck ht ha0 h0
    have l1 := ship_comp_A_le week 1 a.nDiet d.nDiet ss truck ht ha1 h1
    have l2 := ship_comp_A_le week 2 a.sReg d.sReg ss truck ht ha2 h2
    have l3 := ship_comp_A_le week 3 a.sDiet d.sDiet ss truck ht ha3 h3
    unfold shipment_rounding_with_violations Vec4.sum
    dsimp only
    omega
  · intro g0 g1 g2 g3
    have l0 := ship_comp_B_le week 0 a.nReg d.nReg ha0 g0
    have l1 := ship_comp_B_le week 1 a.nDiet d.nDiet ha1 g1
    have l2 := ship_comp_B_le week 2 a.sReg d.sReg ha2 g2
    have l3 := ship_comp_B_le week 3 a.sDiet d.sDiet ha3 g3
    unfold shipment_rounding Vec4.sum
    dsimp only
    omega

/-- C3 (amended): on peak week 3 with total demand exceeding capacity,
every component of the returned allocation is at most the maximum of the
safety stock and the corresponding demand component, in both variants; in
particular the allocation never exceeds a demand component that is at
least the safety stock.  (The original claim's bound by demand alone fails
in the uniform-adjustment branch, whose floor `max(ss, ·)` can exceed a
small demand; see the counterexample.) -/
theorem peak_week_allocation_le_max_safety (d : Vec4) (cap ss : ℤ) (hover : cap < d.sum) :
    ((allocate_production_with_tradeoffs d 3 cap ss).1.nReg ≤ max ss d.nReg ∧
     (allocate_production_with_tradeoffs d 3 cap ss).1.nDiet ≤ max ss d.nDiet ∧
     (allocate_production_with_tradeoffs d 3 cap ss).1.sReg ≤ max ss d.sReg ∧
     (allocate_production_with_tradeoffs d 3 cap ss).1.sDiet ≤ max ss d.sDiet) ∧
    (capacity < d.sum →
      (allocate_production d 3).1.nReg ≤ max safety_stock d.nReg ∧
      (allocate_production d 3).1.nDiet ≤ max safety_stock d.nDiet ∧
      (allocate_production d 3).1.sReg ≤ max safety_stock d.sReg ∧
      (allocate_production d 3).1.sDiet ≤ max safety_stock d.sDiet) :=
  ⟨peak_allocation_bound_A d cap ss hover, fun h => peak_allocation_bound_B d h⟩

/-- C4 (amended): on the designated violation week/SKU (week 2, North
Diet, index 1) with positive demand and allocation below the truck size,
the app.py variant bypasses the safety floor: the shipment equals the
truck-quantized amount `0` (below the positive safety stock) and the
violation-note list is non-empty.  In the app2.py variant, however, the
safety floor is applied before the bypass test, so the bypass does not
fire: the shipment equals `safety_stock` and no violation is recorded.
(The original claim asserted the bypass behaviour of app.py for both
cited variants; the app2.py half fails, see the counterexample.) -/
theorem forced_bypass_week2_north_diet
    (a d : Vec4) (ss truck : ℤ) (hss : 0 < ss)
    (ha : 0 ≤ a.nDiet) (halt : a.nDiet < truck) (hd : d.nDiet ≠ 0) :
    ((shipment_rounding_with_violations a ss truck d 2).1.nDiet = 0 ∧
      (shipment_rounding_with_violations a ss truck d 2).2 ≠ []) ∧
    (a.nDiet < truck_size →
      (shipment_rounding a d 2).1.nDiet = safety_stock ∧
      (shipment_rounding a d 2).2 = []) := by
  constructor
  · have hcomp : ship_comp_A 2 1 a.nDiet d.nDiet ss truck =
        (0, [ViolationA.northDietBelow 0 ss]) := by
      unfold ship_comp_A
      rw [if_neg hd, if_pos ⟨rfl, rfl⟩]
      dsimp only
      rw [floor_qdiv_eq_zero ha halt, mul_zero, if_pos hss]
    have n0 : (ship_comp_A 2 0 a.nReg d.nReg ss truck).2 = [] :=
      ship_comp_A_notes_nil (by omega)
    have n2 : (ship_comp_A 2 2 a.sReg d.sReg ss truck).2 = [] :=
      ship_comp_A_notes_nil (by omega)
    have n3 : (ship_comp_A 2 3 a.sDiet d.sDiet ss truck).2 = [] :=
      ship_comp_A_notes_nil (by omega)
    unfold shipment_rounding_with_violations
    dsimp only
    rw [hcomp, n0, n2, n3]
    simp
  · intro halt2
    have hcomp : ship_comp_B 2 1 a.nDiet d.nDiet = (safety_stock, []) := by
      unfold ship_comp_B
      rw [if_neg hd]
      dsimp only
      have hfd : Int.fdiv a.nDiet truck_size = 0 := by
        rw [Int.fdiv_eq_ediv _ (by unfold truck_size; omega)]
        exact Int.ediv_eq_zero_of_lt ha halt2
      rw [hfd, zero_mul, max_eq_right (by unfold safety_stock; omega)]
      rw [if_neg (by rintro ⟨-, -, hgt⟩; exact lt_irrefl _ hgt :
          ¬((2 : ℤ) = 2 ∧ (1 : ℕ) = 1 ∧ safety_stock > safety_stock))]
      rw [if_neg (lt_irrefl safety_stock)]
    have n0 : (ship_comp_B 2 0 a.nReg d.nReg).2 = [] := ship_comp_B_notes_nil (by omega)
    have n2 : (ship_comp_B 2 2 a.sReg d.sReg).2 = [] := ship_comp_B_notes_nil (by omega)
    have n3 : (ship_comp_B 2 3 a.sDiet d.sDiet).2 = [] := ship_comp_B_notes_nil (by omega)
    unfold shipment_rounding
    dsimp only
    rw [hcomp, n0, n2, n3]
    simp

/-- C5 (amended): for non-negative allocations, every component of the
returned shipment plan is a non-negative integer, and each component is a
multiple of the truck size or equals the safety-stock floor value — with,
in the app2.py variant, the additional possibility `safety_stock - 1000`
produced by the forced week-2 violation injection, which is neither a
truck multiple nor the floor (see the counterexample). -/
theorem shipment_components_shape
    (a d : Vec4) (ss truck week : ℤ) (ht : 0 < truck) (hss : 0 ≤ ss) (ha : a.Nonneg) :
    ((0 ≤ (shipment_rounding_with_violations a ss truck d week).1.nReg ∧
        (truck ∣ (shipment_rounding_with_violations a ss truck d week).1.nReg ∨
          (shipment_rounding_with_violations a ss truck d week).1.nReg = ss)) ∧
     (0 ≤ (shipment_rounding_with_violations a ss truck d week).1.nDiet ∧
        (truck ∣ (shipment_rounding_with_violations a ss truck d week).1.nDiet ∨
          (shipment_rounding_with_violations a ss truck d week).1.nDiet = ss)) ∧
     (0 ≤ (shipment_rounding_with_violations a ss truck d week).1.sReg ∧
        (truck ∣ (shipment_rounding_with_violations a ss truck d week).1.sReg ∨
          (shipment_rounding_with_violations a ss truck d week).1.sReg = ss)) ∧
     (0 ≤ (shipment_rounding_with_violations a ss truck d week).1.sDiet ∧
        (truck ∣ (shipment_rounding_with_violations a ss truck d week).1.sDiet ∨
          (shipment_rounding_with_violations a ss truck d week).1.sDiet = ss))) ∧
    ((0 ≤ (shipment_rounding a d week).1.nReg ∧
        (truck_size ∣ (shipment_rounding a d week).1.nReg ∨
          (shipment_rounding a d week).1.nReg = safety_stock ∨
          (shipment_rounding a d week).1.nReg = safety_stock - 1000)) ∧
     (0 ≤ (shipment_rounding a d week).1.nDiet ∧
        (truck_size ∣ (shipment_rounding a d week).1.nDiet ∨
          (shipment_rounding a d week).1.nDiet = safety_stock ∨
          (shipment_rounding a d week).1.nDiet = safety_stock - 1000)) ∧
     (0 ≤ (shipment_rounding a d week).1.sReg ∧
        (truck_size ∣ (shipment_rounding a d week).1.sReg ∨
          (shipment_rounding a d week).1.sReg = safety_stock ∨
          (shipment_rounding a d week).1.sReg = safety_stock - 1000)) ∧
     (0 ≤ (shipment_rounding a d week).1.sDiet ∧
        (truck_size ∣ (shipment_rounding a d week).1.sDiet ∨
          (shipment_rounding a d week).1.sDiet = safety_stock ∨
          (shipment_rounding a d week).1.sDiet = safety_stock - 1000))) := by
  obtain ⟨ha0, ha1, ha2, ha3⟩ := ha
  exact ⟨⟨ship_comp_A_shape ht ha0 hss, ship_comp_A_shape ht ha1 hss,
          ship_comp_A_shape ht ha2 hss, ship_comp_A_shape ht ha3 hss⟩,
         ⟨ship_comp_B_shape week 0 a.nReg d.nReg, ship_comp_B_shape week 1 a.nDiet d.nDiet,
          ship_comp_B_shape week 2 a.sReg d.sReg, ship_comp_B_shape week 3 a.sDiet d.sDiet⟩⟩

/-- C7: outside the designated forced-bypass component (week 2, North
Diet), every component with strictly positive demand is shipped at least
the safety stock, in both variants: the normal path applies
`max(·, safetyStock)` unconditionally. -/
theorem normal_path_safety_floor (a d : Vec4) (ss truck week : ℤ) :
    ((0 < d.nReg → ss ≤ (shipment_rounding_with_violations a ss truck d week).1.nReg) ∧
     (week ≠ 2 → 0 < d.nDiet →
        ss ≤ (shipment_rounding_with_violations a ss truck d week).1.nDiet) ∧
     (0 < d.sReg → ss ≤ (shipment_rounding_with_violations a ss truck d week).1.sReg) ∧
     (0 < d.sDiet → ss ≤ (shipment_rounding_with_violations a ss truck d week).1.sDiet)) ∧
    ((0 < d.nReg → safety_stock ≤ (shipment_rounding a d week).1.nReg) ∧
     (week ≠ 2 → 0 < d.nDiet → safety_stock ≤ (shipment_rounding a d week).1.nDiet) ∧
     (0 < d.sReg → safety_stock ≤ (shipment_rounding a d week).1.sReg) ∧
     (0 < d.sDiet → safety_stock ≤ (shipment_rounding a d week).1.sDiet)) := by
  refine ⟨⟨fun h => ship_comp_A_floor (by omega) (ne_of_gt h),
           fun hw h => ship_comp_A_floor (fun hc => hw hc.1) (ne_of_gt h),
           fun h => ship_comp_A_floor (by omega) (ne_of_gt h),
           fun h => ship_comp_A_floor (by omega) (ne_of_gt h)⟩,
          ⟨fun h => ship_comp_B_floor (by omega) (ne_of_gt h),
           fun hw h => ship_comp_B_floor (fun hc => hw hc.1) (ne_of_gt h),
           fun h => ship_comp_B_floor (by omega) (ne_of_gt h),
           fun h => ship_comp_B_floor (by omega) (ne_of_gt h)⟩⟩

/-- C8: for non-negative shipments and demands, the fulfillment
percentage of both variants lies in `[0, 100]`, and it equals `100` when
the week's total demand is zero (the zero-denominator guard). -/
theorem fulfillment_pct_in_range (s d : Vec4) (hs : s.Nonneg) (hd : d.Nonneg) :
    (0 ≤ fulfill_pct s d ∧ fulfill_pct s d ≤ 100 ∧ (d.sum = 0 → fulfill_pct s d = 100)) ∧
    (0 ≤ fulfillment_pct s d ∧ fulfillment_pct s d ≤ 100 ∧
      (d.sum = 0 → fulfillment_pct s d = 100)) := by
  obtain ⟨hs0, hs1, hs2, hs3⟩ := hs
  obtain ⟨hd0, hd1, hd2, hd3⟩ := hd
  have hf0 : 0 ≤ fulfilled s d := by
    unfold fulfilled
    have m0 : (0 : ℤ) ≤ min s.nReg d.nReg := le_min hs0 hd0
    have m1 : (0 : ℤ) ≤ min s.nDiet d.nDiet := le_min hs1 hd1
    have m2 : (0 : ℤ) ≤ min s.sReg d.sReg := le_min hs2 hd2
    have m3 : (0 : ℤ) ≤ min s.sDiet d.sDiet := le_min hs3 hd3
    omega
  have hfle : fulfilled s d ≤ d.sum := by
    unfold fulfilled Vec4.sum
    have m0 := min_le_right s.nReg d.nReg
    have m1 := min_le_right s.nDiet d.nDiet
    have m2 := min_le_right s.sReg d.sReg
    have m3 := min_le_right s.sDiet d.sDiet
    omega
  constructor
  · unfold fulfill_pct
    split
    · rename_i hpos
      have hposq : (0 : ℚ) < (d.sum : ℚ) := by exact_mod_cast hpos
      have hfq : (0 : ℚ) ≤ (fulfilled s d : ℚ) := by exact_mod_cast hf0
      have hle1 : (fulfilled s d : ℚ) / (d.sum : ℚ) ≤ 1 :=
        (div_le_one hposq).mpr (by exact_mod_cast hfle)
      have hge0 : (0 : ℚ) ≤ (fulfilled s d : ℚ) / (d.sum : ℚ) :=
        div_nonneg hfq (le_of_lt hposq)
      refine ⟨by linarith, by linarith, ?_⟩
      intro h
      exact absurd h (by omega)
    · exact ⟨by norm_num, by norm_num, fun _ => rfl⟩
  · unfold fulfillment_pct
    split
    · rename_i hne
      have hpos : 0 < d.sum := lt_of_le_of_ne (by omega) (Ne.symm hne)
      have hposq : (0 : ℚ) < (d.sum : ℚ) := by exact_mod_cast hpos
      have hfq : (0 : ℚ) ≤ (fulfilled s d : ℚ) := by exact_mod_cast hf0
      have hkey : 100 * (fulfilled s d : ℚ) / (d.sum : ℚ) ≤ 100 := by
        rw [div_le_iff₀ hposq]
        have h : (fulfilled s d : ℚ) ≤ (d.sum : ℚ) := by exact_mod_cast hfle
        linarith
      refine ⟨?_, hkey, fun h => absurd h hne⟩
      exact div_nonneg (by linarith) (le_of_lt hposq)
    · exact ⟨by norm_num, by norm_num, fun _ => rfl⟩

/-- C10: for non-negative North-Diet demand, app.py's independently
computed per-week violation flag (`any(s < safety_stock and d > 0)`) is
set if and only if the violation-note list returned by the shipment
engine for that week is non-empty. -/
theorem violation_flag_iff_notes (a d : Vec4) (ss truck week : ℤ) (hd1 : 0 ≤ d.nDiet) :
    violation_flag (shipment_rounding_with_violations a ss truck d week).1 d ss ↔
      (shipment_rounding_with_violations a ss truck d week).2 ≠ [] := by
  have k0 : ¬((ship_comp_A week 0 a.nReg d.nReg ss truck).1 < ss ∧ 0 < d.nReg) := by
    rintro ⟨hlt, hdp⟩
    exact absurd (ship_comp_A_floor (by omega) (ne_of_gt hdp)) (not_le.mpr hlt)
  have k2 : ¬((ship_comp_A week 2 a.sReg d.sReg ss truck).1 < ss ∧ 0 < d.sReg) := by
    rintro ⟨hlt, hdp⟩
    exact absurd (ship_comp_A_floor (by omega) (ne_of_gt hdp)) (not_le.mpr hlt)
  have k3 : ¬((ship_comp_A week 3 a.sDiet d.sDiet ss truck).1 < ss ∧ 0 < d.sDiet) := by
    rintro ⟨hlt, hdp⟩
    exact absurd (ship_comp_A_floor (by omega) (ne_of_gt hdp)) (not_le.mpr hlt)
  have n0 : (ship_comp_A week 0 a.nReg d.nReg ss truck).2 = [] :=
    ship_comp_A_notes_nil (by omega)
  have n2 : (ship_comp_A week 2 a.sReg d.sReg ss truck).2 = [] :=
    ship_comp_A_notes_nil (by omega)
  have n3 : (ship_comp_A week 3 a.sDiet d.sDiet ss truck).2 = [] :=
    ship_comp_A_notes_nil (by omega)
  unfold shipment_rounding_with_violations violation_flag
  dsimp only
  rw [n0, n2, n3]
  simp only [List.nil_append, List.append_nil]
  constructor
  · rintro (h | h | h | h)
    · exact absurd h k0
    · obtain ⟨hlt, hdp⟩ := h
      by_cases hw : week = 2
      · unfold ship_comp_A at hlt ⊢
        rw [if_neg (ne_of_gt hdp)] at hlt ⊢
        rw [if_pos ⟨hw, rfl⟩] at hlt ⊢
        dsimp only at hlt ⊢
        rw [if_pos hlt]
        simp
      · exact absurd (ship_comp_A_floor (fun hc => hw hc.1) (ne_of_gt hdp)) (not_le.mpr hlt)
    · exact absurd h k2
    · exact absurd h k3
  · intro hne
    refine Or.inr (Or.inl ?_)
    by_cases hw : week = 2
    · by_cases hd0 : d.nDiet = 0
      · exfalso
        apply hne
        unfold ship_comp_A
        rw [if_pos hd0]
      · have hdp : 0 < d.nDiet := lt_of_le_of_ne hd1 (Ne.symm hd0)
        unfold ship_comp_A at hne ⊢
        rw [if_neg hd0] at hne ⊢
        rw [if_pos ⟨hw, rfl⟩] at hne ⊢
        dsimp only at hne ⊢
        by_cases hq : truck * ⌊(a.nDiet : ℚ) / (truck : ℚ)⌋ < ss
        · exact ⟨hq, hdp⟩
        · exfalso
          apply hne
          rw [if_neg hq]
    · exfalso
      apply hne
      exact ship_comp_A_notes_nil (fun hc => hw hc.1)

/-! Witnesses: each hypothesis-bearing claim theorem applied at a
concrete input. -/

/-- C1 witness: week 1, demand `(20000, 10000, 20000, 10000)` (all truck
multiples, total 60000 ≤ 150000). -/
theorem within_capacity_allocation_fulfillment_witness :
    allocate_production_with_tradeoffs (Vec4.mk 20000 10000 20000 10000) 1 150000 5000 =
      (Vec4.mk 20000 10000 20000 10000, TradeOff.none, CapNote.fullDemandMet) ∧
    fulfill_pct
      (shipment_rounding_with_violations
        (allocate_production_with_tradeoffs (Vec4.mk 20000 10000 20000 10000) 1 150000 5000).1
        5000 10000 (Vec4.mk 20000 10000 20000 10000) 1).1
      (Vec4.mk 20000 10000 20000 10000) = 100 ∧
    (shipment_rounding_with_violations
      (allocate_production_with_tradeoffs (Vec4.mk 20000 10000 20000 10000) 1 150000 5000).1
      5000 10000 (Vec4.mk 20000 10000 20000 10000) 1).2 = [] :=
  ⟨(within_capacity_allocation_fulfillment (Vec4.mk 20000 10000 20000 10000) 1 150000 5000 10000
      (by decide)).1,
   ((within_capacity_allocation_fulfillment (Vec4.mk 20000 10000 20000 10000) 1 150000 5000 10000
      (by decide)).2 (by decide) (by decide) (by decide) (by decide) (by decide) (by decide)).1,
   ((within_capacity_allocation_fulfillment (Vec4.mk 20000 10000 20000 10000) 1 150000 5000 10000
      (by decide)).2 (by decide) (by decide) (by decide) (by decide) (by decide) (by decide)).2⟩

/-- C2 witness: allocation `(10000, 10000, 10000, 10000)`, demand
`(1, 1, 1, 1)`, week 2. -/
theorem shipment_sum_le_allocation_witness :
    (shipment_rounding_with_violations (Vec4.mk 10000 10000 10000 10000) 5000 10000
        (Vec4.mk 1 1 1 1) 2).1.sum ≤ (Vec4.mk 10000 10000 10000 10000).sum ∧
    (shipment_rounding (Vec4.mk 10000 10000 10000 10000) (Vec4.mk 1 1 1 1) 2).1.sum ≤
      (Vec4.mk 10000 10000 10000 10000).sum :=
  ⟨(shipment_sum_le_allocation (Vec4.mk 10000 10000 10000 10000) (Vec4.mk 1 1 1 1)
      5000 10000 2 (by decide) (by decide) (by decide) (by decide) (by decide) (by decide)).1,
   (shipment_sum_le_allocation (Vec4.mk 10000 10000 10000 10000) (Vec4.mk 1 1 1 1)
      5000 10000 2 (by decide) (by decide) (by decide) (by decide) (by decide) (by decide)).2
     (by decide) (by decide) (by decide) (by decide)⟩

/-- C3 witness: peak-week demand `(140000, 140000, 1000, 1000)` (total
282000, over both capacities). -/
theorem peak_week_allocation_le_max_safety_witness :
    ((allocate_production_with_tradeoffs (Vec4.mk 140000 140000 1000 1000) 3 150000 5000).1.nReg ≤
        max 5000 140000 ∧
      (allocate_production_with_tradeoffs (Vec4.mk 140000 140000 1000 1000) 3 150000 5000).1.nDiet ≤
        max 5000 140000 ∧
      (allocate_production_with_tradeoffs (Vec4.mk 140000 140000 1000 1000) 3 150000 5000).1.sReg ≤
        max 5000 1000 ∧
      (allocate_production_with_tradeoffs (Vec4.mk 140000 140000 1000 1000) 3 150000 5000).1.sDiet ≤
        max 5000 1000) ∧
    ((allocate_production (Vec4.mk 140000 140000 1000 1000) 3).1.nReg ≤ max safety_stock 140000 ∧
      (allocate_production (Vec4.mk 140000 140000 1000 1000) 3).1.nDiet ≤ max safety_stock 140000 ∧
      (allocate_production (Vec4.mk 140000 140000 1000 1000) 3).1.sReg ≤ max safety_stock 1000 ∧
      (allocate_production (Vec4.mk 140000 140000 1000 1000) 3).1.sDiet ≤ max safety_stock 1000) :=
  ⟨(peak_week_allocation_le_max_safety (Vec4.mk 140000 140000 1000 1000) 150000 5000 (by decide)).1,
   (peak_week_allocation_le_max_safety (Vec4.mk 140000 140000 1000 1000) 150000 5000 (by decide)).2
     (by decide)⟩

/-- C4 witness: week 2, North Diet allocation `3000 < 10000`, demand
`(1, 1, 1, 1)`. -/
theorem forced_bypass_week2_north_diet_witness :
    ((shipment_rounding_with_violations (Vec4.mk 10000 3000 10000 10000) 5000 10000
        (Vec4.mk 1 1 1 1) 2).1.nDiet = 0 ∧
      (shipment_rounding_with_violations (Vec4.mk 10000 3000 10000 10000) 5000 10000
        (Vec4.mk 1 1 1 1) 2).2 ≠ []) ∧
    ((shipment_rounding (Vec4.mk 10000 3000 10000 10000) (Vec4.mk 1 1 1 1) 2).1.nDiet =
        safety_stock ∧
      (shipment_rounding (Vec4.mk 10000 3000 10000 10000) (Vec4.mk 1 1 1 1) 2).2 = []) :=
  ⟨(forced_bypass_week2_north_diet (Vec4.mk 10000 3000 10000 10000) (Vec4.mk 1 1 1 1)
      5000 10000 (by decide) (by decide) (by decide) (by decide)).1,
   (forced_bypass_week2_north_diet (Vec4.mk 10000 3000 10000 10000) (Vec4.mk 1 1 1 1)
      5000 10000 (by decide) (by decide) (by decide) (by decide)).2 (by decide)⟩

/-- C5 witness: the North Diet components of both variants at allocation
`(10000, 3000, 0, 7000)`, demand `(1, 0, 1, 1)`, week 2. -/
theorem shipment_components_shape_witness :
    (0 ≤ (shipment_rounding_with_violations (Vec4.mk 10000 3000 0 7000) 5000 10000
        (Vec4.mk 1 0 1 1) 2).1.nDiet ∧
      ((10000 : ℤ) ∣ (shipment_rounding_with_violations (Vec4.mk 10000 3000 0 7000) 5000 10000
          (Vec4.mk 1 0 1 1) 2).1.nDiet ∨
        (shipment_rounding_with_violations (Vec4.mk 10000 3000 0 7000) 5000 10000
          (Vec4.mk 1 0 1 1) 2).1.nDiet = 5000)) ∧
    (0 ≤ (shipment_rounding (Vec4.mk 10000 3000 0 7000) (Vec4.mk 1 0 1 1) 2).1.nDiet ∧
      (truck_size ∣ (shipment_rounding (Vec4.mk 10000 3000 0 7000) (Vec4.mk 1 0 1 1) 2).1.nDiet ∨
        (shipment_rounding (Vec4.mk 10000 3000 0 7000) (Vec4.mk 1 0 1 1) 2).1.nDiet =
          safety_stock ∨
        (shipment_rounding (Vec4.mk 10000 3000 0 7000) (Vec4.mk 1 0 1 1) 2).1.nDiet =
          safety_stock - 1000)) :=
  ⟨(shipment_components_shape (Vec4.mk 10000 3000 0 7000) (Vec4.mk 1 0 1 1) 5000 10000 2
      (by decide) (by decide) (by decide)).1.2.1,
   (shipment_components_shape (Vec4.mk 10000 3000 0 7000) (Vec4.mk 1 0 1 1) 5000 10000 2
      (by decide) (by decide) (by decide)).2.2.1⟩

/-- C7 witness: week 1 (no bypass), all demands positive, zero
allocation — the floor still ships at least the safety stock. -/
theorem normal_path_safety_floor_witness :
    ((5000 : ℤ) ≤ (shipment_rounding_with_violations (Vec4.mk 0 0 0 0) 5000 10000
        (Vec4.mk 1 2 3 4) 1).1.nReg ∧
      (5000 : ℤ) ≤ (shipment_rounding_with_violations (Vec4.mk 0 0 0 0) 5000 10000
        (Vec4.mk 1 2 3 4) 1).1.nDiet) ∧
    (safety_stock ≤ (shipment_rounding (Vec4.mk 0 0 0 0) (Vec4.mk 1 2 3 4) 1).1.nReg ∧
      safety_stock ≤ (shipment_rounding (Vec4.mk 0 0 0 0) (Vec4.mk 1 2 3 4) 1).1.nDiet) :=
  ⟨⟨(normal_path_safety_floor (Vec4.mk 0 0 0 0) (Vec4.mk 1 2 3 4) 5000 10000 1).1.1 (by decide),
    (normal_path_safety_floor (Vec4.mk 0 0 0 0) (Vec4.mk 1 2 3 4) 5000 10000 1).1.2.1
      (by decide) (by decide)⟩,
   ⟨(normal_path_safety_floor (Vec4.mk 0 0 0 0) (Vec4.mk 1 2 3 4) 5000 10000 1).2.1 (by decide),
    (normal_path_safety_floor (Vec4.mk 0 0 0 0) (Vec4.mk 1 2 3 4) 5000 10000 1).2.2.1
      (by decide) (by decide)⟩⟩

/-- C8 witness: bounds at the week-1 shipments/demand, and the
zero-demand case giving 100. -/
theorem fulfillment_pct_in_range_witness :
    (0 ≤ fulfill_pct (Vec4.mk 20000 10000 20000 10000) (Vec4.mk 28000 18000 22000 12000) ∧
      fulfill_pct (Vec4.mk 20000 10000 20000 10000) (Vec4.mk 28000 18000 22000 12000) ≤ 100 ∧
      0 ≤ fulfillment_pct (Vec4.mk 20000 10000 20000 10000) (Vec4.mk 28000 18000 22000 12000) ∧
      fulfillment_pct (Vec4.mk 20000 10000 20000 10000) (Vec4.mk 28000 18000 22000 12000) ≤ 100) ∧
    fulfill_pct (Vec4.mk 20000 10000 20000 10000) (Vec4.mk 0 0 0 0) = 100 :=
  ⟨⟨(fulfillment_pct_in_range (Vec4.mk 20000 10000 20000 10000)
        (Vec4.mk 28000 18000 22000 12000) (by decide) (by decide)).1.1,
    (fulfillment_pct_in_range (Vec4.mk 20000 10000 20000 10000)
        (Vec4.mk 28000 18000 22000 12000) (by decide) (by decide)).1.2.1,
    (fulfillment_pct_in_range (Vec4.mk 20000 10000 20000 10000)
        (Vec4.mk 28000 18000 22000 12000) (by decide) (by decide)).2.1,
    (fulfillment_pct_in_range (Vec4.mk 20000 10000 20000 10000)
        (Vec4.mk 28000 18000 22000 12000) (by decide) (by decide)).2.2.1⟩,
   (fulfillment_pct_in_range (Vec4.mk 20000 10000 20000 10000)
        (Vec4.mk 0 0 0 0) (by decide) (by decide)).1.2.2 (by decide)⟩

/-- C10 witness: week 2, North Diet allocation `3000` (quantized to `0 <
5000`), demand `(1, 1, 1, 1)`. -/
theorem violation_flag_iff_notes_witness :
    violation_flag
        (shipment_rounding_with_violations (Vec4.mk 10000 3000 10000 10000) 5000 10000
          (Vec4.mk 1 1 1 1) 2).1 (Vec4.mk 1 1 1 1) 5000 ↔
      (shipment_rounding_with_violations (Vec4.mk 10000 3000 10000 10000) 5000 10000
        (Vec4.mk 1 1 1 1) 2).2 ≠ [] :=
  violation_flag_iff_notes (Vec4.mk 10000 3000 10000 10000) (Vec4.mk 1 1 1 1) 5000 10000 2
    (by decide)

end SCM
